import Mathlib

/-!
# `postcss.config.cjs`

A shallow embedding of the CommonJS module `postcss.config.cjs` and the
structural properties of the configuration it exports.

The module body is one statement, `module.exports = { plugins: [...] }`.
It uses a single free identifier of the CommonJS wrapper, `require`, at two
package names.  What the two packages export is owned by those packages, so
it is carried as a value of an arbitrary type `P`; the result of calling such
a value is kept as the symbolic application `Value.applied callee args`.
-/

namespace PostcssConfig

/-- JavaScript values the module can build.  `P` is the type of values owned
by external packages (what `require` returns). -/
inductive Value (P : Type) where
  | str (s : String)
  | object (fields : List (String × Value P))
  | array (items : List (Value P))
  | ext (p : P)
  | applied (callee : Value P) (args : List (Value P))

/-- The CommonJS module record; the body only touches `exports`. -/
structure Module (P : Type) where
  exports : Value P

/-- What the CommonJS wrapper and the process put in scope of a module body:
`require`, `__filename`, `__dirname`, `process.argv` and `process.env`. -/
structure Host (P : Type) where
  require : String → P
  filename : String
  dirname : String
  argv : List String
  env : List (String × String)

/-- Own enumerable keys of a value, in insertion order (`Object.keys`). -/
def Value.keys {P : Type} : Value P → List String
  | .object fields => fields.map Prod.fst
  | _ => []

/-- Property read `v[key]` on an object literal whose keys are distinct, as
they are in this file; `none` stands for `undefined`. -/
def Value.get? {P : Type} : Value P → String → Option (Value P)
  | .object fields, key => (fields.find? (fun kv => kv.1 == key)).map Prod.snd
  | _, _ => none

/-- Elements of an array value. -/
def Value.items {P : Type} : Value P → List (Value P)
  | .array xs => xs
  | _ => []

/-- Whether a value is an array. -/
def Value.isArray {P : Type} : Value P → Bool
  | .array _ => true
  | _ => false

/-- Whether a value is the result of a call made by the module. -/
def Value.isInvocation {P : Type} : Value P → Bool
  | .applied _ _ => true
  | _ => false

/-- Arguments the module passed when it built the value: those of the call for
a call result, none for any other value. -/
def Value.suppliedArgs {P : Type} : Value P → List (Value P)
  | .applied _ args => args
  | _ => []

/-- Option keys the module supplied to an entry: the keys of every argument
it passed. -/
def Value.suppliedOptionKeys {P : Type} (v : Value P) : List String :=
  v.suppliedArgs.flatMap Value.keys

/-- Body of `postcss.config.cjs`:
`module.exports = { plugins: [ require("@tailwindcss/postcss")({ config:
"./tailwind.config.js" }), require("autoprefixer") ] }`. -/
def moduleBody {P : Type} (h : Host P) (_m : Module P) : Module P :=
  Module.mk
    (.object
      [("plugins",
        .array
          [.applied (.ext (h.require "@tailwindcss/postcss"))
              [.object [("config", .str "./tailwind.config.js")]],
           .ext (h.require "autoprefixer")])])

/-- Loading the file: the body runs on a fresh module record whose `exports`
is the empty object, and the loader returns `module.exports`. -/
def load {P : Type} (h : Host P) : Value P :=
  (moduleBody h (Module.mk (.object []))).exports

/-- The `plugins` sequence of a configuration (empty when there is none). -/
def plugins {P : Type} (cfg : Value P) : List (Value P) :=
  match cfg.get? "plugins" with
  | some v => v.items
  | none => []

/-- A host whose packages are named by their identifier. -/
def namedHost : Host String :=
  Host.mk id "/app/postcss.config.cjs" "/app" ["node", "postcss"] []

/-- A second host: other paths, arguments and environment, and other packages
everywhere except at the two identifiers the file loads. -/
def otherHost : Host String :=
  Host.mk
    (fun name =>
      if name = "@tailwindcss/postcss" ∨ name = "autoprefixer" then name else "other:" ++ name)
    "/srv/site/postcss.config.cjs" "/srv/site" ["node", "vite", "build"]
    [("NODE_ENV", "production")]

/-! ## The exported record -/

/-- C5: the exported record is the object whose single key is `plugins`; the
value under that key is the array holding, in this order, the result of
calling `require("@tailwindcss/postcss")` with its options object and the value
of `require("autoprefixer")`; a property read succeeds at the key `plugins`
and at no other key. -/
theorem exports_single_field_plugins {P : Type} (h : Host P) :
    (load h).keys = ["plugins"] ∧
    (load h).keys.length = 1 ∧
    ((load h).get? "plugins").map Value.isArray = some true ∧
    (load h).get? "plugins" = some (.array (plugins (load h))) ∧
    (load h).get? "plugins" =
      some (.array
        [.applied (.ext (h.require "@tailwindcss/postcss"))
            [.object [("config", .str "./tailwind.config.js")]],
         .ext (h.require "autoprefixer")]) ∧
    load h =
      .object
        [("plugins",
          .array
            [.applied (.ext (h.require "@tailwindcss/postcss"))
                [.object [("config", .str "./tailwind.config.js")]],
             .ext (h.require "autoprefixer")])] ∧
    (∀ key : String, ((load h).get? key).isSome = ("plugins" == key)) := by
  refine ⟨rfl, rfl, rfl, rfl, rfl, rfl, ?_⟩
  intro key
  by_cases hk : "plugins" = key
  · subst hk
    rfl
  · have hb : ("plugins" == key) = false := by simpa using hk
    simp [load, moduleBody, Value.get?, List.find?, hb]

/-! ## The plugin sequence -/

/-- C1: the plugin sequence has exactly two entries; index 0 holds the value
obtained from `require("@tailwindcss/postcss")`, index 1 the value obtained
from `require("autoprefixer")`, there is no index 2, and the sequence is not
the reversed one. -/
theorem plugins_two_in_fixed_order {P : Type} (h : Host P) :
    (plugins (load h)).length = 2 ∧
    (plugins (load h))[0]? =
      some (.applied (.ext (h.require "@tailwindcss/postcss"))
        [.object [("config", .str "./tailwind.config.js")]]) ∧
    (plugins (load h))[1]? = some (.ext (h.require "autoprefixer")) ∧
    (plugins (load h))[2]? = none ∧
    plugins (load h) ≠
      [.ext (h.require "autoprefixer"),
       .applied (.ext (h.require "@tailwindcss/postcss"))
        [.object [("config", .str "./tailwind.config.js")]]] := by
  refine ⟨rfl, rfl, rfl, rfl, ?_⟩
  intro hrev
  simp [plugins, load, moduleBody, Value.get?, Value.items, List.find?] at hrev

/-- C2: the first entry was built by passing exactly one argument, an object
whose only key is `config`, and the value under that key is the string
`"./tailwind.config.js"`. -/
theorem first_entry_options_config_only {P : Type} (h : Host P) :
    ∃ e opts, (plugins (load h))[0]? = some e ∧
      e.suppliedArgs = [opts] ∧
      opts.keys = ["config"] ∧
      opts.get? "config" = some (.str "./tailwind.config.js") ∧
      e.suppliedOptionKeys = ["config"] ∧
      ∀ key : String, (opts.get? key).isSome = ("config" == key) := by
  refine ⟨_, _, rfl, rfl, rfl, rfl, rfl, ?_⟩
  intro key
  by_cases hk : "config" = key
  · subst hk
    rfl
  · have hb : ("config" == key) = false := by simpa using hk
    simp [Value.get?, List.find?, hb]

/-- C4: the second entry is the value of `require("autoprefixer")`; the module
passes it no argument, hence no option key and no option value. -/
theorem second_entry_no_options {P : Type} (h : Host P) :
    ∃ e, (plugins (load h))[1]? = some e ∧
      e = .ext (h.require "autoprefixer") ∧
      e.isInvocation = false ∧
      e.suppliedArgs = [] ∧
      e.suppliedOptionKeys = [] :=
  ⟨.ext (h.require "autoprefixer"), rfl, rfl, rfl, rfl, rfl⟩

/-- C3, as stated, fails: on the host `namedHost` not every entry is the
result of calling something with one options object, and the entry at index 1
is not `require("autoprefixer")` called with an empty object. -/
theorem not_every_entry_is_invocation :
    (¬ ∀ e ∈ plugins (load namedHost),
        ∃ callee fields, e = Value.applied callee [Value.object fields]) ∧
    (plugins (load namedHost))[1]? ≠
      some (.applied (.ext (namedHost.require "autoprefixer")) [.object []]) := by
  constructor
  · intro hall
    obtain ⟨callee, fields, heq⟩ :=
      hall (.ext (namedHost.require "autoprefixer"))
        (by simp [plugins, load, moduleBody, Value.get?, Value.items, List.find?])
    cases heq
  · intro heq
    simp [plugins, load, moduleBody, Value.get?, Value.items, List.find?] at heq

/-- C3, amended: the sequence is `[e0, e1]` where `e0` is the result of calling
the value of `require("@tailwindcss/postcss")` with one object that holds a
path string, and `e1` is the value of `require("autoprefixer")` itself, which
the module does not call and to which it passes no argument. -/
theorem entries_call_then_bare_module {P : Type} (h : Host P) :
    ∃ e0 e1, plugins (load h) = [e0, e1] ∧
      e0 = .applied (.ext (h.require "@tailwindcss/postcss"))
            [.object [("config", .str "./tailwind.config.js")]] ∧
      e0.isInvocation = true ∧
      e1 = .ext (h.require "autoprefixer") ∧
      e1.isInvocation = false ∧
      e1.suppliedArgs = [] :=
  ⟨_, _, rfl, rfl, rfl, rfl, rfl, rfl⟩

/-! ## Loading is a constant -/

/-- C6: two hosts that resolve the two package identifiers to the same values
load structurally equal configurations, whatever their file paths, arguments,
environment and other packages; the plugin sequences then agree in length and
entry by entry. -/
theorem load_deterministic {P : Type} (h₁ h₂ : Host P)
    (htw : h₁.require "@tailwindcss/postcss" = h₂.require "@tailwindcss/postcss")
    (hap : h₁.require "autoprefixer" = h₂.require "autoprefixer") :
    load h₁ = load h₂ ∧
    (plugins (load h₁)).length = (plugins (load h₂)).length ∧
    ∀ i : Nat, (plugins (load h₁))[i]? = (plugins (load h₂))[i]? := by
  have hload : load h₁ = load h₂ := by
    simp [load, moduleBody, htw, hap]
  exact ⟨hload, by rw [hload], fun i => by rw [hload]⟩

/-- Witness for C6: `namedHost` and `otherHost` differ in paths, arguments,
environment and in the other packages, agree on the two identifiers, and load
equal configurations. -/
theorem load_deterministic_witness :
    namedHost.require "@tailwindcss/postcss" = otherHost.require "@tailwindcss/postcss" ∧
    namedHost.require "autoprefixer" = otherHost.require "autoprefixer" ∧
    namedHost.argv ≠ otherHost.argv ∧
    namedHost.env ≠ otherHost.env ∧
    namedHost.require "postcss" ≠ otherHost.require "postcss" ∧
    load namedHost = load otherHost ∧
    (plugins (load namedHost)).length = (plugins (load otherHost)).length ∧
    ∀ i : Nat, (plugins (load namedHost))[i]? = (plugins (load otherHost))[i]? :=
  ⟨by decide, by decide, by decide, by decide, by decide,
    load_deterministic namedHost otherHost (by decide) (by decide)⟩

end PostcssConfig
